import Mathlib

/-!
Verification of the WhatsApp Web core client library against its natural
language specification.  The TypeScript source is shallowly embedded:
byte buffers (Node `Buffer`) are lists of naturals below 256, JavaScript
`Map`s are insertion-ordered association lists, timers and the random
source are explicit parameters, and thrown errors are `Except.error`
results.  Each definition mirrors one function of the source; theorems at
the end settle the specification claims.
-/

set_option maxRecDepth 1000000

namespace WACore

/-! ### Binary protocol constants (source: WA_TOKENS / WA_TAGS) -/

/-- Token dictionary `WA_TOKENS`, transcribed verbatim from the source. -/
def WA_TOKENS : List String := [
  "", "", "", "stream:start", "", "stream:features", "", "", "", "", "", "", "", "", "1", "1.0",
  "ack", "action", "add", "after", "archive", "author", "available", "battery", "before", "body",
  "broadcast", "chat", "class", "clean", "code", "composing", "config", "create", "debug",
  "delete", "demote", "duplicate", "encoding", "error", "false", "filehash", "from", "g.us",
  "group", "groups_v2", "height", "id", "image", "in", "index", "invis", "item", "jid", "kind",
  "last", "leave", "live", "log", "media", "message", "mimetype", "missing", "modify", "name",
  "notification", "notify", "out", "owner", "participant", "paused", "picture", "played",
  "presence", "preview", "promote", "query", "quoted", "read", "receipt", "received", "recipient",
  "recording", "relay", "remove", "response", "resume", "retry", "s.whatsapp.net", "seconds",
  "set", "size", "status", "subject", "subscribe", "t", "text", "to", "true", "type", "unarchive",
  "unavailable", "url", "user", "value", "web", "width", "mute", "read_only", "admin", "creator",
  "short", "update", "powersave", "checksum", "epoch", "block", "previous", "409", "replaced",
  "reason", "spam", "modify_tag", "message_tag", "delivery", "emoji", "title", "description",
  "canonical-url", "matched-text", "star", "unstar", "media_key", "filename", "identity",
  "unread", "page", "page_size", "download", "business", "verified_name", "location",
  "document", "audio", "video", "init", "platform", "version"]

/-- Tag byte `WA_TAGS.LIST_EMPTY`. -/
def LIST_EMPTY : Nat := 0

/-- Tag byte `WA_TAGS.LIST_8`. -/
def LIST_8 : Nat := 248

/-- Tag byte `WA_TAGS.LIST_16`. -/
def LIST_16 : Nat := 249

/-- Tag byte `WA_TAGS.BINARY_8`. -/
def BINARY_8 : Nat := 252

/-- Tag byte `WA_TAGS.BINARY_20`. -/
def BINARY_20 : Nat := 253

/-! ### UTF-8 (models `Buffer.from(str, "utf8")` and `naclUtil` codecs) -/

/-- Standard UTF-8 encoding of one Unicode scalar value (1 to 4 bytes). -/
def utf8EncodeChar (c : Char) : List Nat :=
  let n := c.toNat
  if n < 128 then [n]
  else if n < 2048 then [192 + n / 64, 128 + n % 64]
  else if n < 65536 then [224 + n / 4096, 128 + (n / 64) % 64, 128 + n % 64]
  else [240 + n / 262144, 128 + (n / 4096) % 64, 128 + (n / 64) % 64, 128 + n % 64]

/-- UTF-8 encoding of a list of characters. -/
def utf8EncodeList : List Char → List Nat
  | [] => []
  | c :: cs => utf8EncodeChar c ++ utf8EncodeList cs

/-- UTF-8 encoding of a string: models `Buffer.from(s, "utf8")` and
`naclUtil.decodeUTF8(s)` from the source. -/
def utf8Encode (s : String) : List Nat := utf8EncodeList s.data

/-- One step of UTF-8 decoding: given the lead byte and the remaining
bytes, the decoded scalar value and the bytes after its sequence, or
`none` when the sequence is ill-formed. -/
def utf8DecodeStep (b : Nat) (rest : List Nat) : Option (Char × List Nat) :=
  if b < 128 then some (Char.ofNat b, rest)
  else if b < 192 then none
  else if b < 224 then
    match rest with
    | b1 :: rest2 =>
      if 128 ≤ b1 ∧ b1 < 192 then
        some (Char.ofNat ((b - 192) * 64 + (b1 - 128)), rest2)
      else none
    | [] => none
  else if b < 240 then
    match rest with
    | b1 :: b2 :: rest3 =>
      if (128 ≤ b1 ∧ b1 < 192) ∧ (128 ≤ b2 ∧ b2 < 192) then
        some (Char.ofNat ((b - 224) * 4096 + (b1 - 128) * 64 + (b2 - 128)), rest3)
      else none
    | _ => none
  else if b < 248 then
    match rest with
    | b1 :: b2 :: b3 :: rest4 =>
      if (128 ≤ b1 ∧ b1 < 192) ∧ (128 ≤ b2 ∧ b2 < 192) ∧ (128 ≤ b3 ∧ b3 < 192) then
        some (Char.ofNat ((b - 240) * 262144 + (b1 - 128) * 4096 + (b2 - 128) * 64 + (b3 - 128)),
          rest4)
      else none
    | _ => none
  else none

/-- UTF-8 decoding loop; the fuel only bounds the number of decoded
characters and each character consumes at least one byte, so any fuel at
or above the byte count is exact. -/
def utf8DecodeGo : Nat → List Nat → Option (List Char)
  | _, [] => some []
  | 0, _ :: _ => none
  | fuel + 1, b :: rest =>
    match utf8DecodeStep b rest with
    | some (c, rest2) => (utf8DecodeGo fuel rest2).map (fun cs => c :: cs)
    | none => none

/-- UTF-8 decoding: models `naclUtil.encodeUTF8(bytes)`; returns `none` on
byte sequences that are not well-formed UTF-8. -/
def utf8Decode (l : List Nat) : Option (List Char) := utf8DecodeGo l.length l

/-! ### Binary serializer (source: WhatsAppCore.serializeList and friends) -/

/-- Values accepted by `serializeItem` / `serializeList`: `null`, strings,
booleans, numbers (the source only ever passes integral numbers, so they
are embedded as `Int`), `Buffer`s, arrays, and flat key/value objects. -/
inductive WAValue where
  | nullV : WAValue
  | str : String → WAValue
  | boolV : Bool → WAValue
  | num : Int → WAValue
  | bytes : List Nat → WAValue
  | list : List WAValue → WAValue
  | obj : List (String × WAValue) → WAValue

/-- Source `WhatsAppCore.serializeString`: a string that appears in the
token dictionary at an index below 236 is emitted as that single index
byte; otherwise the UTF-8 payload is emitted behind a `BINARY_8` tag with
a one-byte length (UTF-8 length below 256) or a `BINARY_20` tag with a
three-byte big-endian length. -/
def serializeString (s : String) : List Nat :=
  if WA_TOKENS.indexOf s < WA_TOKENS.length ∧ WA_TOKENS.indexOf s < 236 then
    [WA_TOKENS.indexOf s]
  else if (utf8Encode s).length < 256 then
    BINARY_8 :: (utf8Encode s).length :: utf8Encode s
  else
    BINARY_20 :: ((utf8Encode s).length / 65536) % 256 :: ((utf8Encode s).length / 256) % 256
      :: (utf8Encode s).length % 256 :: utf8Encode s

/-- Source `WhatsAppCore.serializeBinary`: raw bytes behind a `BINARY_8`
or `BINARY_20` tag, chosen exactly as for non-token strings. -/
def serializeBinary (data : List Nat) : List Nat :=
  if data.length < 256 then
    BINARY_8 :: data.length :: data
  else
    BINARY_20 :: (data.length / 65536) % 256 :: (data.length / 256) % 256
      :: data.length % 256 :: data

/-- List header bytes of `serializeList` for a non-empty list of the given
length: `LIST_8` with a one-byte count below 256, else `LIST_16` with a
two-byte big-endian count. -/
def listHeader (n : Nat) : List Nat :=
  if n < 256 then [LIST_8, n] else [LIST_16, (n / 256) % 256, n % 256]

mutual

/-- Source `WhatsAppCore.serializeItem`.  The object case of the source
flattens the entries into an alternating key, value list and feeds it to
`serializeList`; the flattening is inlined here (the keys are strings, so
each pair contributes `serializeString key ++ serializeItem value`), and
`serializeItem_obj` below proves the inlining equal to the
composition the source performs. -/
def serializeItem : WAValue → List Nat
  | .nullV => [LIST_EMPTY]
  | .str s => serializeString s
  | .boolV b => serializeString (if b then "true" else "false")
  | .num n => serializeString (toString n)
  | .bytes data => serializeBinary data
  | .list l =>
    if l.length = 0 then [LIST_EMPTY] else listHeader l.length ++ serializeItems l
  | .obj entries =>
    if (2 * entries.length) = 0 then [LIST_EMPTY]
    else listHeader (2 * entries.length) ++ serializePairs entries

/-- Serialization of the elements of a list, in order (the loop body of
`serializeList`). -/
def serializeItems : List WAValue → List Nat
  | [] => []
  | v :: vs => serializeItem v ++ serializeItems vs

/-- Serialization of flattened object entries: key, value, key, value. -/
def serializePairs : List (String × WAValue) → List Nat
  | [] => []
  | (k, v) :: rest => serializeString k ++ serializeItem v ++ serializePairs rest

end

/-- Source `WhatsAppCore.serializeList`: the empty list is the single
`LIST_EMPTY` byte; otherwise a length header followed by each element
through `serializeItem`. -/
def serializeList (l : List WAValue) : List Nat :=
  if l.length = 0 then [LIST_EMPTY] else listHeader l.length ++ serializeItems l

/-- Flattening of object entries into the alternating key, value list the
source builds with `Object.entries`. -/
def flattenPairs : List (String × WAValue) → List WAValue
  | [] => []
  | (k, v) :: rest => .str k :: v :: flattenPairs rest

/-! ### Inbound classifier (source: WhatsAppCore.parseBinaryMessage)

The source has no structural frame decoder: `parseBinaryMessage` converts
the buffer to a latin1 string and pattern-matches it heuristically.  The
model below works directly on the byte list, which is in bijection with
that latin1 string. -/

/-- Membership in the character class of the source regex
`([a-zA-Z0-9+/=]{20,})`. -/
def isBase64Char (b : Nat) : Bool :=
  (65 ≤ b && b ≤ 90) || (97 ≤ b && b ≤ 122) || (48 ≤ b && b ≤ 57)
    || b == 43 || b == 47 || b == 61

/-- Leftmost greedy match of the source regex `([a-zA-Z0-9+/=]{20,})`:
the first maximal run of at least 20 base64 characters. -/
def findBase64Run : List Nat → Option (List Nat)
  | [] => none
  | b :: rest =>
    let run := (b :: rest).takeWhile isBase64Char
    if 20 ≤ run.length then some run else findBase64Run rest

/-- ASCII bytes of a string (for the `includes` substring checks). -/
def asciiBytes (s : String) : List Nat := s.data.map Char.toNat

/-- Contiguous-sublist check: models `String.prototype.includes` on the
latin1 view of the buffer. -/
def listContainsSub (hay needle : List Nat) : Bool :=
  needle.isPrefixOf hay ||
    match hay with
    | [] => false
    | _ :: t => listContainsSub t needle

/-- Classification results of `parseBinaryMessage`.  The source returns
plain objects `{type, data}`; only the `qr_response`, `auth_success` and
`unknown` shapes are reachable (the `error` shape needs a thrown
exception inside the try block, which the modelled operations never
produce).  The `unknown` payload is the raw buffer; the source renders it
as a hex string, which is a bijective presentation of the same bytes. -/
inductive ParsedMessage where
  | qrResponse (ref : List Nat)
  | authSuccess (wid pushname : String)
  | unknown (raw : List Nat)
deriving DecidableEq, Repr

/-- Source `WhatsAppCore.parseBinaryMessage`: if the buffer is longer than
10 bytes, starts with the `LIST_8` tag and contains a run of at least 20
base64 characters, classify as a QR response carrying that run; else if
the bytes contain "success" or "connected", classify as an authentication
success with hard-coded user data; else classify as unknown. -/
def parseBinaryMessage (data : List Nat) : ParsedMessage :=
  let qrRef :=
    if 10 < data.length ∧ data.headD 0 = LIST_8 then findBase64Run data else none
  match qrRef with
  | some run => .qrResponse run
  | none =>
    if listContainsSub data (asciiBytes "success")
        || listContainsSub data (asciiBytes "connected") then
      .authSuccess "user@c.us" "WhatsApp User"
    else
      .unknown data

/-! ### JSON values (models the JavaScript runtime JSON object)

The crypto layer serializes object payloads with `JSON.stringify` and
re-parses decrypted plaintext with `JSON.parse`.  Both are runtime
builtins, modelled here on the fragment the library exchanges: `null`,
booleans, integers without leading zeros, strings with the single-character
escapes, arrays and objects.  Numbers with fractions or exponents and
unicode escapes are outside the modelled fragment (the parser answers
`none` there, in which case `decrypt` returns the raw string). -/

/-- JSON values of the modelled fragment. -/
inductive JsonValue where
  | jnull : JsonValue
  | jbool : Bool → JsonValue
  | jnum : Int → JsonValue
  | jstr : String → JsonValue
  | jarr : List JsonValue → JsonValue
  | jobj : List (String × JsonValue) → JsonValue

/-- JSON whitespace. -/
def isJsonWs (c : Char) : Bool := c = ' ' || c = '\t' || c = '\n' || c = '\r'

/-- Drop leading JSON whitespace. -/
def skipWs : List Char → List Char
  | [] => []
  | c :: cs => if isJsonWs c then skipWs cs else c :: cs

/-- Longest digit run at the front of the input. -/
def takeDigits : List Char → List Char × List Char
  | [] => ([], [])
  | c :: cs =>
    if c.isDigit then
      let (d, r) := takeDigits cs
      (c :: d, r)
    else ([], c :: cs)

/-- Numeric value of a digit run. -/
def digitsToNat (ds : List Char) : Nat :=
  ds.foldl (fun a c => a * 10 + (c.toNat - 48)) 0

/-- A single-character JSON string escape: the self-representing escapes
quote, backslash and slash, and the control escapes n, t, r, b, f. -/
def escapeChar (e : Char) : Option Char :=
  if e = 'n' then some (Char.ofNat 10)
  else if e = 't' then some (Char.ofNat 9)
  else if e = 'r' then some (Char.ofNat 13)
  else if e = 'b' then some (Char.ofNat 8)
  else if e = 'f' then some (Char.ofNat 12)
  else if e = '"' || e = '\\' || e = '/' then some e
  else none

/-- Body of a JSON string literal, after the opening quote. -/
def parseStringChars : Nat → List Char → Option (List Char × List Char)
  | 0, _ => none
  | _ + 1, [] => none
  | fuel + 1, c :: cs =>
    if c = '"' then some ([], cs)
    else if c = '\\' then
      match cs with
      | e :: cs2 =>
        match escapeChar e with
        | some ec => (parseStringChars fuel cs2).map (fun p => (ec :: p.1, p.2))
        | none => none
      | [] => none
    else (parseStringChars fuel cs).map (fun p => (c :: p.1, p.2))

/-- A JSON number of the modelled fragment: an optionally signed integer
without leading zeros and without fraction or exponent. -/
def parseJsonNumber (input : List Char) : Option (JsonValue × List Char) :=
  let (neg, afterSign) := match input with
    | '-' :: r => (true, r)
    | r => (false, r)
  let (ds, r) := takeDigits afterSign
  if ds.isEmpty then none
  else if 1 < ds.length ∧ ds.headD '0' = '0' then none
  else
    match r with
    | '.' :: _ => none
    | 'e' :: _ => none
    | 'E' :: _ => none
    | _ =>
      let n : Int := Int.ofNat (digitsToNat ds)
      some (.jnum (if neg then -n else n), r)

mutual

/-- Recursive-descent JSON value of the modelled fragment; the fuel is an
upper bound on the recursion depth. -/
def parseJsonValue : Nat → List Char → Option (JsonValue × List Char)
  | 0, _ => none
  | fuel + 1, input =>
    match skipWs input with
    | [] => none
    | c :: cs =>
      if c = 'n' then
        match cs with
        | 'u' :: 'l' :: 'l' :: r => some (.jnull, r)
        | _ => none
      else if c = 't' then
        match cs with
        | 'r' :: 'u' :: 'e' :: r => some (.jbool true, r)
        | _ => none
      else if c = 'f' then
        match cs with
        | 'a' :: 'l' :: 's' :: 'e' :: r => some (.jbool false, r)
        | _ => none
      else if c = '"' then
        (parseStringChars fuel cs).map (fun p => (.jstr (String.mk p.1), p.2))
      else if c = '-' || c.isDigit then parseJsonNumber (c :: cs)
      else if c = '[' then
        match skipWs cs with
        | ']' :: r => some (.jarr [], r)
        | r =>
          (parseJsonItems fuel r).map (fun p => (.jarr p.1, p.2))
      else if c = '\x7b' then
        match skipWs cs with
        | '\x7d' :: r => some (.jobj [], r)
        | r =>
          (parseJsonEntries fuel r).map (fun p => (.jobj p.1, p.2))
      else none

/-- Comma-separated array items up to the closing bracket. -/
def parseJsonItems : Nat → List Char → Option (List JsonValue × List Char)
  | 0, _ => none
  | fuel + 1, input =>
    match parseJsonValue fuel input with
    | none => none
    | some (v, r) =>
      match skipWs r with
      | ',' :: r2 => (parseJsonItems fuel r2).map (fun p => (v :: p.1, p.2))
      | ']' :: r2 => some ([v], r2)
      | _ => none

/-- Comma-separated object entries up to the closing brace. -/
def parseJsonEntries : Nat → List Char → Option (List (String × JsonValue) × List Char)
  | 0, _ => none
  | fuel + 1, input =>
    match skipWs input with
    | '"' :: r =>
      match parseStringChars fuel r with
      | none => none
      | some (key, r2) =>
        match skipWs r2 with
        | ':' :: r3 =>
          match parseJsonValue fuel r3 with
          | none => none
          | some (v, r4) =>
            match skipWs r4 with
            | ',' :: r5 => (parseJsonEntries fuel r5).map (fun p => ((String.mk key, v) :: p.1, p.2))
            | '\x7d' :: r5 => some ([(String.mk key, v)], r5)
            | _ => none
        | _ => none
    | _ => none

end

/-- Models `JSON.parse` on the fragment above: `none` stands for a thrown
`SyntaxError` (or a construct outside the fragment). -/
def jsonParse (s : String) : Option JsonValue :=
  match parseJsonValue (s.length + 1) s.data with
  | some (v, rest) => if (skipWs rest).isEmpty then some v else none
  | none => none

/-! ### Authenticated symmetric encryption (source: tweetnacl-impl encrypt / decrypt)

The `nacl.secretbox` primitive is an external library dependency; it is
embedded as any operation satisfying its documented contract: opening with
the encryption key recovers the message, opening with any other key
fails. -/

/-- Contract of `nacl.secretbox` (box: message, nonce, key) and
`nacl.secretbox.open` (unbox: ciphertext, nonce, key). -/
structure SecretboxSpec where
  box : List Nat → List Nat → List Nat → List Nat
  unbox : List Nat → List Nat → List Nat → Option (List Nat)
  unbox_box : ∀ m n k, unbox (box m n k) n k = some m
  unbox_wrong_key : ∀ m n k k', k' ≠ k → unbox (box m n k) n k' = none

/-- Result of `decrypt`: the source returns either the `JSON.parse` of the
plaintext or the plaintext string itself. -/
inductive DecryptResult where
  | jsonVal : JsonValue → DecryptResult
  | strVal : String → DecryptResult

/-- Source `encrypt` (tweetnacl-impl): UTF-8 encode the message, secretbox
it under a fresh 24-byte nonce, and prepend the nonce to the ciphertext.
An object message enters as its `JSON.stringify` serialization, so the
model takes the post-stringify string.  The nonce (random in the source)
and the resolved shared secret (`createSharedSecret` result, or the
base64-decoded key itself when no public key is passed) are explicit
parameters.  The base64 armoring of the combined buffer and its decoding
at the start of `decrypt` are a bijective pair from the external util
library and are modelled away. -/
def encrypt (S : SecretboxSpec) (message : String) (nonce sharedSecret : List Nat) : List Nat :=
  nonce ++ S.box (utf8Encode message) nonce sharedSecret

/-- Source `decrypt` (tweetnacl-impl): split off the 24-byte nonce, open
the secretbox (a failed open throws "Failed to decrypt message"), UTF-8
decode, then return `JSON.parse` of the plaintext when it parses and the
plaintext string otherwise. -/
def decrypt (S : SecretboxSpec) (combined sharedSecret : List Nat) :
    Except String DecryptResult :=
  match S.unbox (combined.drop 24) (combined.take 24) sharedSecret with
  | none => .error "Failed to decrypt message"
  | some decryptedBytes =>
    match utf8Decode decryptedBytes with
    | none => .error "invalid utf8"
    | some cs =>
      match jsonParse (String.mk cs) with
      | some j => .ok (.jsonVal j)
      | none => .ok (.strVal (String.mk cs))

/-- Value of `decrypt` after a successful authenticated open of the
plaintext `m`. -/
def jsonParseOrStr (m : String) : DecryptResult :=
  match jsonParse m with
  | some j => .jsonVal j
  | none => .strVal m

/-- Witness instance of the secretbox contract, used to instantiate
hypotheses at concrete inputs: the "ciphertext" is the key length, the
key, then the message, and opening checks the stored key. -/
def toySecretbox : SecretboxSpec where
  box m _ k := k.length :: (k ++ m)
  unbox c _ k :=
    match c with
    | [] => none
    | len :: rest =>
      if len = k.length ∧ rest.take k.length = k then some (rest.drop k.length) else none
  unbox_box := by
    intro m n k
    simp [List.take_left' rfl, List.drop_left' rfl]
  unbox_wrong_key := by
    intro m n k k' hne
    simp only
    rw [if_neg]
    rintro ⟨hlen, htake⟩
    rw [← hlen, List.take_left' rfl] at htake
    exact hne htake.symm

/-! ### Key agreement (source: tweetnacl-impl generateKeyPair / createSharedSecret)

The x25519 curve operation (`nacl.box.keyPair`, `nacl.box.before`) is an
external library dependency.  The model keeps the Diffie-Hellman structure
and realizes the curve group as the multiplicative group modulo the
Curve25519 prime: a public key is the base point raised to the private
scalar, and the shared secret raises the peer public key to the own
private scalar (the deterministic HSalsa20 key-derivation step that
`nacl.box.before` applies on top is a function of the shared group element
and does not affect agreement).  Randomness of `nacl.box.keyPair` is the
explicit seed. -/

/-- Modulus of the modelled curve group (the Curve25519 prime). -/
def curvePrime : Nat := 2 ^ 255 - 19

/-- Scalar application in the modelled group. -/
def scalarApply (scalar point : Nat) : Nat := point ^ scalar % curvePrime

/-- Base point of the modelled group (x25519 uses u = 9). -/
def basePoint : Nat := 9

/-- Source `generateKeyPair`: fresh private scalar (the seed) and the
matching public key. -/
def generateKeyPair (seed : Nat) : Nat × Nat := (seed, scalarApply seed basePoint)

/-- Source `createSharedSecret(privateKey, publicKey)`. -/
def createSharedSecret (privateKey publicKey : Nat) : Nat := scalarApply privateKey publicKey

/-! ### Pairing-code authentication (source: PairingCodeAuthenticator, WhatsAppCore.generatePairingCode) -/

/-- Source regex `^\+?[0-9]{10,15}$` of `requestPairingCode`: an optional
leading plus followed by 10 to 15 ASCII digits and nothing else.  The
separate falsiness check `!phoneNumber` of the source only rejects the
empty string, which this pattern rejects as well. -/
def phoneRegexMatches (s : String) : Bool :=
  match s.data with
  | '+' :: rest => decide (10 ≤ rest.length) && decide (rest.length ≤ 15) && rest.all Char.isDigit
  | cs => decide (10 ≤ cs.length) && decide (cs.length ≤ 15) && cs.all Char.isDigit

/-- Source cleanup `phoneNumber.replace(/[^0-9]/g, '')`. -/
def normalizePhone (s : String) : String := String.mk (s.data.filter Char.isDigit)

/-- Mutable state of a `PairingCodeAuthenticator`: the stored phone
number and whether the expiry timer is pending.  `clientId` and the
keypair are fixed at construction. -/
structure PairingAuthState where
  clientId : String
  publicKey : String
  phoneNumber : Option String
  pairingTimerActive : Bool
deriving DecidableEq, Repr

/-- Events emitted by the pairing authenticator. -/
inductive PairingEvent where
  | pairingRequested (clientId publicKey phoneNumber : String)
deriving DecidableEq, Repr

/-- Source `PairingCodeAuthenticator.requestPairingCode`: reject the phone
number unless it matches the pattern (the throw happens before any
mutation, so the state comes back unchanged and nothing is emitted);
otherwise store the digits-only number, restart the expiry timer, and
emit `pairing_requested` with clientId, public key and the cleaned
number. -/
def requestPairingCode (st : PairingAuthState) (phoneNumber : String) :
    Except String Unit × PairingAuthState × List PairingEvent :=
  if ¬ phoneRegexMatches phoneNumber then
    (.error "Invalid phone number format. Use international format (e.g. +1234567890)", st, [])
  else
    let cleaned := normalizePhone phoneNumber
    (.ok (),
     { st with phoneNumber := some cleaned, pairingTimerActive := true },
     [.pairingRequested st.clientId st.publicKey cleaned])

/-- A 300-character string, used as a concrete over-255-byte encoder
input. -/
def longSample : String := String.mk (List.replicate 300 'a')

/-- Alphabet of `WhatsAppCore.generatePairingCode`. -/
def pairingChars : List Char := "ABCDEFGHIJKLMNOPQRSTUVWXYZ0123456789".data

/-- Source `WhatsAppCore.generatePairingCode`: eight characters drawn from
the 36-letter alphabet; the `Math.random` draws are the explicit
parameter (`Math.floor(Math.random() * chars.length)` always lands in
`Fin 36`). -/
def generatePairingCode (draws : Fin 8 → Fin 36) : String :=
  String.mk (List.ofFn (fun i => pairingChars.getD (draws i).val 'A'))

/-! ### Entity cache (source: WhatsAppCore.handleNewMessage)

JavaScript `Map`s are embedded as insertion-ordered association lists:
`Map.prototype.set` overwrites in place or appends, `Map.prototype.get`
is the first (unique) binding. -/

/-- Models `Map.prototype.set`. -/
def storeSet {α : Type} (k : String) (v : α) : List (String × α) → List (String × α)
  | [] => [(k, v)]
  | (k', v') :: rest => if k' = k then (k, v) :: rest else (k', v') :: storeSet k v rest

/-- Models `Map.prototype.get`. -/
def storeGet {α : Type} (k : String) : List (String × α) → Option α
  | [] => none
  | (k', v') :: rest => if k' = k then some v' else storeGet k rest

/-- Message content: `data.content` when present, else the object
`{ text: data.text }` built by the source. -/
inductive MsgContent where
  | raw (content : String)
  | textWrapped (text : Option String)
deriving DecidableEq, Repr

/-- The `WAMessage` record of the source.  `chat` and `sender` keep the
`undefined`-able reads `data.from || data.chat` and
`data.sender || data.from` as options. -/
structure WAMessage where
  id : String
  fromMe : Bool
  timestamp : Nat
  chat : Option String
  sender : Option String
  msgType : String
  content : MsgContent
  status : String
deriving DecidableEq, Repr

/-- The `WAChat` record of the source (fields the cache mutates, plus the
optional descriptive fields). -/
structure WAChat where
  id : String
  name : String
  chatType : String
  timestamp : Nat
  unreadCount : Nat
  lastMessage : Option WAMessage
  participants : Option (List String)
  admins : Option (List String)
  description : Option String
  archived : Bool
  pinned : Bool
  muted : Bool
deriving DecidableEq, Repr

/-- Parsed `message` event data: every field the source reads, each
optional because the parsed object is untyped. -/
structure NewMessageData where
  id : Option String
  timestamp : Option Nat
  fromField : Option String
  chat : Option String
  sender : Option String
  msgType : Option String
  content : Option String
  text : Option String
deriving DecidableEq, Repr

/-- The cache state the handler touches. -/
structure CoreState where
  messages : List (String × WAMessage)
  chats : List (String × WAChat)
deriving DecidableEq, Repr

/-- Events emitted by `handleNewMessage`. -/
inductive CoreEvent where
  | messageNew (m : WAMessage)
  | chatUpdate (c : WAChat)
deriving DecidableEq, Repr

/-- The message object `handleNewMessage` builds: `generateMessageId()`
and `Date.now()` are the explicit parameters `fallbackId` and `now`. -/
def buildNewMessage (data : NewMessageData) (fallbackId : String) (now : Nat) : WAMessage where
  id := data.id.getD fallbackId
  fromMe := false
  timestamp := data.timestamp.getD now
  chat := data.fromField <|> data.chat
  sender := data.sender <|> data.fromField
  msgType := data.msgType.getD "text"
  content := match data.content with
    | some c => .raw c
    | none => .textWrapped data.text
  status := "received"

/-- The chat mutation `handleNewMessage` applies to a cached chat: set
the last message, take over its timestamp, and increment the unread
count. -/
def bumpChat (c : WAChat) (m : WAMessage) : WAChat :=
  { c with lastMessage := some m, timestamp := m.timestamp, unreadCount := c.unreadCount + 1 }

/-- Source `WhatsAppCore.handleNewMessage`: store the message under its
id, emit `message.new`, and, when the owning chat is already cached,
overwrite its last message and timestamp, increment its unread count, and
emit `chat.update`.  (The webhook forwarding at the end is outbound HTTP
delivery to an external collaborator and is outside the cache model.) -/
def handleNewMessage (st : CoreState) (data : NewMessageData) (fallbackId : String) (now : Nat) :
    CoreState × List CoreEvent :=
  let message := buildNewMessage data fallbackId now
  let messages1 := storeSet message.id message st.messages
  let chatLookup := message.chat.bind (fun cid => (storeGet cid st.chats).map (fun c => (cid, c)))
  match chatLookup with
  | none => ({ st with messages := messages1 }, [.messageNew message])
  | some (cid, chat) =>
    ({ messages := messages1, chats := storeSet cid (bumpChat chat message) st.chats },
     [.messageNew message, .chatUpdate (bumpChat chat message)])

/-- Concrete chat fixture for the cache theorems. -/
def sampleChat : WAChat :=
  ⟨"c@s.whatsapp.net", "Chat", "dm", 0, 0, none, none, none, none, false, false, false⟩

/-- Concrete inbound message event fixture (id and timestamp present, as
in a server-delivered message). -/
def sampleEvent : NewMessageData :=
  ⟨some "m1", some 5, some "c@s.whatsapp.net", none, some "u@s.whatsapp.net", some "text",
    some "hi", none⟩

/-- Concrete cache fixture: one chat, no messages. -/
def sampleState : CoreState := ⟨[], [("c@s.whatsapp.net", sampleChat)]⟩

/-! ### Reconnection policy (source: WhatsAppCore.handleReconnection) -/

/-- The connection options the policy reads. -/
structure ReconnectionConfig where
  retryCount : Nat
  retryDelay : Nat
deriving DecidableEq, Repr

/-- Source `WhatsAppCore.handleReconnection`, as a transition on the
`reconnectCount` field: at or above the retry cap it emits
`connection.failed` and schedules nothing; below the cap it increments
the count and schedules a reconnect attempt after
`retryDelay * reconnectCount` milliseconds.  The result is the new count,
the scheduled delay if any, and whether `connection.failed` fired. -/
def handleReconnection (cfg : ReconnectionConfig) (reconnectCount : Nat) :
    Nat × Option Nat × Bool :=
  if cfg.retryCount ≤ reconnectCount then
    (reconnectCount, none, true)
  else
    (reconnectCount + 1, some (cfg.retryDelay * (reconnectCount + 1)), false)

/-- Observable trace of `k` successive failure-driven entries into
`handleReconnection`, starting from a given count: the scheduled delay
and the `connection.failed` flag of each entry. -/
def reconnectionTrace (cfg : ReconnectionConfig) : Nat → Nat → List (Option Nat × Bool)
  | 0, _ => []
  | k + 1, count =>
    (handleReconnection cfg count).2
      :: reconnectionTrace cfg k (handleReconnection cfg count).1

/-! ### QR challenge composition (sources: QRAuthenticator.generateQR,
WhatsAppCore.handleQRResponse) -/

/-- Events emitted on the `qr` channel. -/
inductive QREvent where
  | qr (payload : String)
deriving DecidableEq, Repr

/-- State of a `QRAuthenticator`: clientId and keypair are fixed at
construction; `qrData` and the two timers are mutable. -/
structure QRAuthState where
  clientId : String
  publicKey : String
  qrData : Option String
  timersActive : Bool
deriving DecidableEq, Repr

/-- Source `QRAuthenticator.generateQR`: compose the template string
`ref,clientId,publicKey` from the fresh random ref (explicit parameter),
store it, restart the expiry and refresh timers, and emit it on the `qr`
channel. -/
def generateQR (st : QRAuthState) (ref : String) : QRAuthState × List QREvent :=
  let qrData := ref ++ "," ++ st.clientId ++ "," ++ st.publicKey
  ({ st with qrData := some qrData, timersActive := true }, [.qr qrData])

/-- The credential fields `WhatsAppCore.handleQRResponse` reads
(`publicKey.toString("base64")` is the explicit base64 string). -/
structure CoreCredentials where
  clientId : String
  publicKeyB64 : String
deriving DecidableEq, Repr

/-- Source `WhatsAppCore.handleQRResponse`: when the parsed data carries a
ref and credentials exist, join `[ref, publicKey, clientId]` with commas,
emit the result on the `qr` channel and return the stored QR data fields;
otherwise do nothing.  (The side write of qr.txt and the refresh timer
restart are not part of the emitted payload.) -/
def handleQRResponse (credentials : Option CoreCredentials) (dataRef : Option String) :
    Option (String × String × String) × List QREvent :=
  match dataRef, credentials with
  | some ref, some c =>
    let qrString := String.intercalate "," [ref, c.publicKeyB64, c.clientId]
    (some (ref, c.publicKeyB64, c.clientId), [.qr qrString])
  | _, _ => (none, [])

/-! ## Theorems -/

/-! ### Serializer structure lemmas -/

theorem serializeItem_list (l : List WAValue) : serializeItem (.list l) = serializeList l := by
  cases l <;> simp [serializeItem, serializeList]

theorem flattenPairs_length (entries : List (String × WAValue)) :
    (flattenPairs entries).length = 2 * entries.length := by
  induction entries with
  | nil => rfl
  | cons kv rest ih => obtain ⟨k, v⟩ := kv; simp [flattenPairs, ih]; omega

theorem serializeItems_flattenPairs (entries : List (String × WAValue)) :
    serializeItems (flattenPairs entries) = serializePairs entries := by
  induction entries with
  | nil => rfl
  | cons kv rest ih =>
    obtain ⟨k, v⟩ := kv
    simp [flattenPairs, serializeItems, serializePairs, serializeItem, ih]

/-- The inlined object case of `serializeItem` agrees with the
`serializeList(pairs)` call of the source on the flattened entries. -/
theorem serializeItem_obj (entries : List (String × WAValue)) :
    serializeItem (.obj entries) = serializeList (flattenPairs entries) := by
  simp only [serializeItem, serializeList, flattenPairs_length, serializeItems_flattenPairs]

/-! ### UTF-8 inversion -/

theorem char_toNat_lt (c : Char) : c.toNat < 1114112 := by
  rcases c.valid with h | ⟨h1, h2⟩
  · exact Nat.lt_trans h (by norm_num)
  · exact h2

theorem utf8DecodeStep_encodeChar (c : Char) (t : List Nat) :
    ∃ b rest, utf8EncodeChar c ++ t = b :: rest ∧ t.length ≤ rest.length ∧
      utf8DecodeStep b rest = some (c, t) := by
  have hval : c.toNat < 1114112 := char_toNat_lt c
  rcases Nat.lt_or_ge c.toNat 128 with h1 | h1
  · have he : utf8EncodeChar c = [c.toNat] := by
      unfold utf8EncodeChar; rw [if_pos h1]
    refine ⟨c.toNat, t, by rw [he]; rfl, Nat.le_refl _, ?_⟩
    unfold utf8DecodeStep
    rw [if_pos h1, Char.ofNat_toNat]
  · rcases Nat.lt_or_ge c.toNat 2048 with h2 | h2
    · have he : utf8EncodeChar c = [192 + c.toNat / 64, 128 + c.toNat % 64] := by
        unfold utf8EncodeChar; rw [if_neg (by omega), if_pos h2]
      refine ⟨192 + c.toNat / 64, (128 + c.toNat % 64) :: t, by rw [he]; rfl, by simp, ?_⟩
      unfold utf8DecodeStep
      rw [if_neg (by omega), if_neg (by omega), if_pos (by omega)]
      show (if 128 ≤ 128 + c.toNat % 64 ∧ 128 + c.toNat % 64 < 192 then
        some (Char.ofNat ((192 + c.toNat / 64 - 192) * 64 + (128 + c.toNat % 64 - 128)), t)
        else none) = _
      rw [if_pos (by omega)]
      have harith : (192 + c.toNat / 64 - 192) * 64 + (128 + c.toNat % 64 - 128) = c.toNat := by
        omega
      rw [harith, Char.ofNat_toNat]
    · rcases Nat.lt_or_ge c.toNat 65536 with h3 | h3
      · have he : utf8EncodeChar c =
            [224 + c.toNat / 4096, 128 + (c.toNat / 64) % 64, 128 + c.toNat % 64] := by
          unfold utf8EncodeChar; rw [if_neg (by omega), if_neg (by omega), if_pos h3]
        refine ⟨224 + c.toNat / 4096, (128 + (c.toNat / 64) % 64) :: (128 + c.toNat % 64) :: t,
          by rw [he]; rfl, by simp; omega, ?_⟩
        unfold utf8DecodeStep
        rw [if_neg (by omega), if_neg (by omega), if_neg (by omega), if_pos (by omega)]
        show (if (128 ≤ 128 + (c.toNat / 64) % 64 ∧ 128 + (c.toNat / 64) % 64 < 192)
              ∧ (128 ≤ 128 + c.toNat % 64 ∧ 128 + c.toNat % 64 < 192) then
          some (Char.ofNat ((224 + c.toNat / 4096 - 224) * 4096
              + (128 + (c.toNat / 64) % 64 - 128) * 64 + (128 + c.toNat % 64 - 128)), t)
          else none) = _
        rw [if_pos (by omega)]
        have harith : (224 + c.toNat / 4096 - 224) * 4096
            + (128 + (c.toNat / 64) % 64 - 128) * 64 + (128 + c.toNat % 64 - 128) = c.toNat := by
          omega
        rw [harith, Char.ofNat_toNat]
      · have he : utf8EncodeChar c =
            [240 + c.toNat / 262144, 128 + (c.toNat / 4096) % 64, 128 + (c.toNat / 64) % 64,
              128 + c.toNat % 64] := by
          unfold utf8EncodeChar
          rw [if_neg (by omega), if_neg (by omega), if_neg (by omega)]
        refine ⟨240 + c.toNat / 262144,
          (128 + (c.toNat / 4096) % 64) :: (128 + (c.toNat / 64) % 64) :: (128 + c.toNat % 64)
            :: t, by rw [he]; rfl, by simp; omega, ?_⟩
        unfold utf8DecodeStep
        rw [if_neg (by omega), if_neg (by omega), if_neg (by omega), if_neg (by omega),
          if_pos (by omega)]
        show (if (128 ≤ 128 + (c.toNat / 4096) % 64 ∧ 128 + (c.toNat / 4096) % 64 < 192)
              ∧ (128 ≤ 128 + (c.toNat / 64) % 64 ∧ 128 + (c.toNat / 64) % 64 < 192)
              ∧ (128 ≤ 128 + c.toNat % 64 ∧ 128 + c.toNat % 64 < 192) then
          some (Char.ofNat ((240 + c.toNat / 262144 - 240) * 262144
              + (128 + (c.toNat / 4096) % 64 - 128) * 4096
              + (128 + (c.toNat / 64) % 64 - 128) * 64 + (128 + c.toNat % 64 - 128)), t)
          else none) = _
        rw [if_pos (by omega)]
        have harith : (240 + c.toNat / 262144 - 240) * 262144
            + (128 + (c.toNat / 4096) % 64 - 128) * 4096
            + (128 + (c.toNat / 64) % 64 - 128) * 64 + (128 + c.toNat % 64 - 128) = c.toNat := by
          omega
        rw [harith, Char.ofNat_toNat]

theorem utf8DecodeGo_encodeList (cs : List Char) (fuel : Nat)
    (h : (utf8EncodeList cs).length ≤ fuel) :
    utf8DecodeGo fuel (utf8EncodeList cs) = some cs := by
  induction cs generalizing fuel with
  | nil => cases fuel <;> rfl
  | cons c cs ih =>
    obtain ⟨b, rest, henc, hlen, hstep⟩ := utf8DecodeStep_encodeChar c (utf8EncodeList cs)
    have hlist : utf8EncodeList (c :: cs) = b :: rest := henc
    rw [hlist]
    rw [hlist] at h
    obtain ⟨f, rfl⟩ : ∃ f, fuel = f + 1 := by
      cases fuel with
      | zero => simp at h
      | succ f => exact ⟨f, rfl⟩
    show (match utf8DecodeStep b rest with
      | some (c2, rest2) => (utf8DecodeGo f rest2).map (fun l => c2 :: l)
      | none => none) = some (c :: cs)
    rw [hstep]
    have hih : utf8DecodeGo f (utf8EncodeList cs) = some cs := by
      apply ih
      simp at h
      omega
    show (utf8DecodeGo f (utf8EncodeList cs)).map (fun l => c :: l) = some (c :: cs)
    rw [hih]
    rfl

theorem utf8Decode_utf8Encode (s : String) : utf8Decode (utf8Encode s) = some s.data :=
  utf8DecodeGo_encodeList s.data _ (Nat.le_refl _)

/-! ### Claim C1 -/

/-- C1 (code evaluated at the failing input): the claimed round trip
`decodeFrame(encodeFrame(v)) = v` fails because the source has no
structural frame decoder: `parseBinaryMessage` classifies the encoding of
the value `["admin", "test"]` as an `unknown` message carrying the raw
bytes, reconstructing no value at all (here `"admin"` encodes to its
token byte 109 and `"test"` to a BINARY_8 payload). -/
theorem parseBinaryMessage_on_serialized_list :
    serializeList [.str "admin", .str "test"] =
      [LIST_8, 2, 109, BINARY_8, 4, 116, 101, 115, 116] ∧
    parseBinaryMessage (serializeList [.str "admin", .str "test"]) =
      .unknown (serializeList [.str "admin", .str "test"]) := by decide

/-! ### Claim C2 -/

/-- C2: for every string `s`, if `s` matches a token-dictionary entry the
matched index is in the single-byte-addressable range (below 236), the
dictionary entry at that index is `s` itself, and the encoder emits
exactly that one index byte; otherwise it emits a length-prefixed UTF-8
payload, with the BINARY_8 tag and a one-byte length when the UTF-8 byte
length is under 256 and the BINARY_20 tag with a three-byte big-endian
length prefix otherwise. -/
theorem serializeString_policy (s : String) :
    (s ∈ WA_TOKENS →
      WA_TOKENS.indexOf s < 236 ∧
      WA_TOKENS.get? (WA_TOKENS.indexOf s) = some s ∧
      serializeString s = [WA_TOKENS.indexOf s]) ∧
    (s ∉ WA_TOKENS → (utf8Encode s).length < 256 →
      serializeString s = BINARY_8 :: (utf8Encode s).length :: utf8Encode s) ∧
    (s ∉ WA_TOKENS → 256 ≤ (utf8Encode s).length →
      serializeString s = BINARY_20 :: ((utf8Encode s).length / 65536) % 256
        :: ((utf8Encode s).length / 256) % 256 :: (utf8Encode s).length % 256
        :: utf8Encode s) := by
  refine ⟨?_, ?_, ?_⟩
  · intro hmem
    have hlen : WA_TOKENS.length = 148 := rfl
    have hlt : WA_TOKENS.indexOf s < WA_TOKENS.length := List.indexOf_lt_length.mpr hmem
    have h236 : WA_TOKENS.indexOf s < 236 := by omega
    refine ⟨h236, ?_, ?_⟩
    · rw [List.get?_eq_get hlt, List.indexOf_get]
    · unfold serializeString
      rw [if_pos ⟨hlt, h236⟩]
  · intro hmem hsmall
    have hidx : WA_TOKENS.indexOf s = WA_TOKENS.length := by
      by_contra hne
      exact hmem (List.indexOf_lt_length.mp (Nat.lt_of_le_of_ne List.indexOf_le_length hne))
    unfold serializeString
    rw [if_neg (by omega), if_pos hsmall]
  · intro hmem hbig
    have hidx : WA_TOKENS.indexOf s = WA_TOKENS.length := by
      by_contra hne
      exact hmem (List.indexOf_lt_length.mp (Nat.lt_of_le_of_ne List.indexOf_le_length hne))
    unfold serializeString
    rw [if_neg (by omega), if_neg (by omega)]

/-- C2 witness: the dictionary string "message" encodes to its single
index byte; the short non-token string "hello" gets a BINARY_8 payload;
the 300-character non-token string gets a BINARY_20 payload. -/
theorem serializeString_policy_witness :
    ("message" ∈ WA_TOKENS ∧ serializeString "message" = [WA_TOKENS.indexOf "message"]) ∧
    ("hello" ∉ WA_TOKENS ∧ (utf8Encode "hello").length < 256 ∧
      serializeString "hello" = BINARY_8 :: (utf8Encode "hello").length :: utf8Encode "hello") ∧
    (longSample ∉ WA_TOKENS ∧ 256 ≤ (utf8Encode longSample).length ∧
      serializeString longSample = BINARY_20 :: ((utf8Encode longSample).length / 65536) % 256
        :: ((utf8Encode longSample).length / 256) % 256 :: (utf8Encode longSample).length % 256
        :: utf8Encode longSample) :=
  ⟨⟨by decide, ((serializeString_policy "message").1 (by decide)).2.2⟩,
   ⟨by decide, by decide, (serializeString_policy "hello").2.1 (by decide) (by decide)⟩,
   ⟨by decide, by decide, (serializeString_policy longSample).2.2 (by decide) (by decide)⟩⟩

/-! ### Claim C3 -/

/-- C3 counterexample: under a secretbox satisfying the library contract,
with the key of 32 sevens and a zero nonce, encrypting the string "123"
and decrypting with the same key yields the JSON number 123 and not the
original string: the final `JSON.parse` attempt of `decrypt` re-types any
plaintext that happens to parse as JSON, so the round trip is not the
identity. -/
theorem decrypt_encrypt_not_identity :
    decrypt toySecretbox
        (encrypt toySecretbox "123" (List.replicate 24 0) (List.replicate 32 7))
        (List.replicate 32 7) = .ok (.jsonVal (.jnum 123)) ∧
    DecryptResult.jsonVal (.jnum 123) ≠ .strVal "123" :=
  ⟨rfl, fun h => DecryptResult.noConfusion h⟩

/-- C3 (amended): for every secretbox satisfying the library contract,
message, 24-byte nonce and key, decrypting the encryption with the same
key succeeds and returns the `JSON.parse` of the plaintext when it parses
as JSON and the plaintext string otherwise (the prepended nonce is
extracted correctly), and decrypting with any other key fails with the
decryption error rather than returning data. -/
theorem decrypt_encrypt_spec (S : SecretboxSpec) (m : String) (nonce key wrongKey : List Nat)
    (hn : nonce.length = 24) (hk : wrongKey ≠ key) :
    decrypt S (encrypt S m nonce key) key = .ok (jsonParseOrStr m) ∧
    decrypt S (encrypt S m nonce key) wrongKey = .error "Failed to decrypt message" := by
  constructor
  · unfold encrypt decrypt
    rw [List.take_left' hn, List.drop_left' hn, S.unbox_box]
    show (match utf8Decode (utf8Encode m) with
      | none => (Except.error "invalid utf8" : Except String DecryptResult)
      | some cs =>
        match jsonParse (String.mk cs) with
        | some j => .ok (.jsonVal j)
        | none => .ok (.strVal (String.mk cs))) = .ok (jsonParseOrStr m)
    rw [utf8Decode_utf8Encode]
    have hmk : String.mk m.data = m := by cases m; rfl
    show (match jsonParse (String.mk m.data) with
      | some j => (Except.ok (.jsonVal j) : Except String DecryptResult)
      | none => .ok (.strVal (String.mk m.data))) = .ok (jsonParseOrStr m)
    rw [hmk]
    unfold jsonParseOrStr
    cases jsonParse m <;> rfl
  · unfold encrypt decrypt
    rw [List.take_left' hn, List.drop_left' hn, S.unbox_wrong_key _ _ _ _ hk]

/-- C3 witness: the amended round trip at the toy secretbox, the
non-JSON plaintext "hello", a zero nonce, the key of 32 sevens and the
distinct key of 32 nines. -/
theorem decrypt_encrypt_spec_witness :
    (List.replicate 24 0 : List Nat).length = 24 ∧
    (List.replicate 32 9 : List Nat) ≠ List.replicate 32 7 ∧
    (decrypt toySecretbox
        (encrypt toySecretbox "hello" (List.replicate 24 0) (List.replicate 32 7))
        (List.replicate 32 7) = .ok (jsonParseOrStr "hello") ∧
      decrypt toySecretbox
        (encrypt toySecretbox "hello" (List.replicate 24 0) (List.replicate 32 7))
        (List.replicate 32 9) = .error "Failed to decrypt message") :=
  ⟨by decide, by decide,
    decrypt_encrypt_spec toySecretbox "hello" (List.replicate 24 0) (List.replicate 32 7)
      (List.replicate 32 9) (by decide) (by decide)⟩

/-! ### Claim C9 -/

/-- C9: deriving the shared secret from the private key of pair A and
the public key of pair B yields the same secret as deriving it from the
private key of pair B and the public key of pair A, for any two
generated key pairs. -/
theorem createSharedSecret_comm (a b : Nat) :
    createSharedSecret (generateKeyPair a).1 (generateKeyPair b).2 =
      createSharedSecret (generateKeyPair b).1 (generateKeyPair a).2 := by
  show scalarApply a (scalarApply b basePoint) = scalarApply b (scalarApply a basePoint)
  unfold scalarApply
  rw [← Nat.pow_mod, ← Nat.pow_mod, ← pow_mul, ← pow_mul, Nat.mul_comm]

/-! ### Claims C4 and C5 -/

theorem getD_mem_of_lt {l : List Char} {n : Nat} {d : Char} (h : n < l.length) :
    l.getD n d ∈ l := by
  rw [List.getD_eq_getElem?_getD, List.getElem?_eq_getElem h]
  exact List.getElem_mem h

/-- C4 counterexample: the phone number "+1 234-567-8900" is rejected
with the validation error and nothing happens, because the source
validates against `^\+?[0-9]{10,15}$` before stripping the non-digit
characters, and spaces and dashes fail that pattern; the claimed
acceptance and pairing-code issuance never occur for this input. -/
theorem requestPairingCode_formatted_number_rejected :
    requestPairingCode ⟨"cid", "pub", none, false⟩ "+1 234-567-8900" =
      (.error "Invalid phone number format. Use international format (e.g. +1234567890)",
        ⟨"cid", "pub", none, false⟩, []) := rfl

/-- C4 (amended): the already-digits-only form "+12345678900" of the same
number is accepted from any authenticator state, stored normalized to
"12345678900", the expiry timer is started and the challenge payload is
emitted; and every code `generatePairingCode` produces has exactly 8
characters, all from the alphabet A-Z0-9.  (For the formatted input
"+1 234-567-8900" itself, see the counterexample: it is rejected.) -/
theorem requestPairingCode_digits_only_accepted :
    (∀ st : PairingAuthState, requestPairingCode st "+12345678900" =
      (.ok (), { st with phoneNumber := some "12345678900", pairingTimerActive := true },
        [.pairingRequested st.clientId st.publicKey "12345678900"])) ∧
    (∀ draws : Fin 8 → Fin 36, (generatePairingCode draws).length = 8 ∧
      ∀ c ∈ (generatePairingCode draws).data, c ∈ pairingChars) := by
  constructor
  · intro st
    unfold requestPairingCode
    rw [if_neg (by decide)]
    have hnorm : normalizePhone "+12345678900" = "12345678900" := by decide
    rw [hnorm]
  · intro draws
    constructor
    · show (String.mk (List.ofFn fun i => pairingChars.getD (draws i).val 'A')).length = 8
      simp [String.length]
    · intro c hc
      simp only [generatePairingCode] at hc
      obtain ⟨i, hi⟩ := Set.mem_range.mp ((List.mem_ofFn _ _).mp hc)
      rw [← hi]
      exact getD_mem_of_lt ((draws i).isLt)

/-- C5: every phone number failing the pattern (10 to 15 digits with an
optional leading plus) makes `requestPairingCode` return the validation
error synchronously with the state unchanged, no timer started and no
challenge emitted. -/
theorem requestPairingCode_invalid_no_side_effects (st : PairingAuthState) (phone : String)
    (h : phoneRegexMatches phone = false) :
    requestPairingCode st phone =
      (.error "Invalid phone number format. Use international format (e.g. +1234567890)",
        st, []) := by
  unfold requestPairingCode
  rw [if_pos (by simp [h])]

/-- C5 witness: the five-digit number "12345" is rejected without side
effects from a concrete authenticator state. -/
theorem requestPairingCode_invalid_no_side_effects_witness :
    phoneRegexMatches "12345" = false ∧
    requestPairingCode ⟨"cid2", "pub2", none, false⟩ "12345" =
      (.error "Invalid phone number format. Use international format (e.g. +1234567890)",
        ⟨"cid2", "pub2", none, false⟩, []) :=
  ⟨by decide, requestPairingCode_invalid_no_side_effects ⟨"cid2", "pub2", none, false⟩ "12345"
    (by decide)⟩

/-! ### Claim C6 -/

theorem storeGet_storeSet_self {α : Type} (k : String) (v : α) (l : List (String × α)) :
    storeGet k (storeSet k v l) = some v := by
  induction l with
  | nil => simp [storeSet, storeGet]
  | cons kv rest ih =>
    obtain ⟨k', v'⟩ := kv
    by_cases h : k' = k
    · simp [storeSet, storeGet, h]
    · simp [storeSet, storeGet, h, ih]

theorem storeSet_storeSet_self {α : Type} (k : String) (v w : α) (l : List (String × α)) :
    storeSet k v (storeSet k w l) = storeSet k v l := by
  induction l with
  | nil => simp [storeSet]
  | cons kv rest ih =>
    obtain ⟨k', v'⟩ := kv
    by_cases h : k' = k
    · simp [storeSet, h]
    · simp [storeSet, h, ih]

/-- Evaluation of `handleNewMessage` when the owning chat is cached. -/
theorem handleNewMessage_found (st : CoreState) (e : NewMessageData) (fid : String) (now : Nat)
    (cid : String) (c0 : WAChat)
    (hcid : (buildNewMessage e fid now).chat = some cid)
    (hc : storeGet cid st.chats = some c0) :
    handleNewMessage st e fid now =
      ({ messages := storeSet (buildNewMessage e fid now).id (buildNewMessage e fid now)
                       st.messages,
         chats := storeSet cid (bumpChat c0 (buildNewMessage e fid now)) st.chats },
       [.messageNew (buildNewMessage e fid now),
        .chatUpdate (bumpChat c0 (buildNewMessage e fid now))]) := by
  unfold handleNewMessage
  show (match (buildNewMessage e fid now).chat.bind
      (fun cid => (storeGet cid st.chats).map (fun c => (cid, c))) with
    | none =>
      (({ messages := storeSet (buildNewMessage e fid now).id (buildNewMessage e fid now)
                        st.messages,
          chats := st.chats } : CoreState),
       [CoreEvent.messageNew (buildNewMessage e fid now)])
    | some (cid2, chat) =>
      ({ messages := storeSet (buildNewMessage e fid now).id (buildNewMessage e fid now)
                       st.messages,
         chats := storeSet cid2 (bumpChat chat (buildNewMessage e fid now)) st.chats },
       [CoreEvent.messageNew (buildNewMessage e fid now),
        CoreEvent.chatUpdate (bumpChat chat (buildNewMessage e fid now))])) = _
  rw [hcid]
  show (match (storeGet cid st.chats).map (fun c => (cid, c)) with
    | none =>
      (({ messages := storeSet (buildNewMessage e fid now).id (buildNewMessage e fid now)
                        st.messages,
          chats := st.chats } : CoreState),
       [CoreEvent.messageNew (buildNewMessage e fid now)])
    | some (cid2, chat) =>
      ({ messages := storeSet (buildNewMessage e fid now).id (buildNewMessage e fid now)
                       st.messages,
         chats := storeSet cid2 (bumpChat chat (buildNewMessage e fid now)) st.chats },
       [CoreEvent.messageNew (buildNewMessage e fid now),
        CoreEvent.chatUpdate (bumpChat chat (buildNewMessage e fid now))])) = _
  rw [hc]
  rfl

/-- C6 counterexample: applying the same concrete inbound message event
twice does not reproduce the once-applied cache: the second application
increments the unread count of the owning chat again (2 against 1). -/
theorem handleNewMessage_not_idempotent :
    (handleNewMessage (handleNewMessage sampleState sampleEvent "f" 0).1 sampleEvent "f" 0).1 ≠
      (handleNewMessage sampleState sampleEvent "f" 0).1 ∧
    (storeGet "c@s.whatsapp.net"
        (handleNewMessage (handleNewMessage sampleState sampleEvent "f" 0).1 sampleEvent "f"
          0).1.chats).map WAChat.unreadCount = some 2 ∧
    (storeGet "c@s.whatsapp.net"
        (handleNewMessage sampleState sampleEvent "f" 0).1.chats).map WAChat.unreadCount =
      some 1 := by decide

/-- C6 (amended): applying the same message event twice is idempotent on
the message store, but each application increments the unread count of
the owning chat once more: after one application the cached chat is
`bumpChat c0 m` (last message and timestamp overwritten, unread count one
higher), after two it is `bumpChat (bumpChat c0 m) m` with unread count
two higher, so the upsert is not idempotent on the chat. -/
theorem handleNewMessage_apply_twice (st : CoreState) (e : NewMessageData) (fid : String)
    (now : Nat) (cid : String) (c0 : WAChat)
    (hcid : (buildNewMessage e fid now).chat = some cid)
    (hc : storeGet cid st.chats = some c0) :
    ((handleNewMessage (handleNewMessage st e fid now).1 e fid now).1.messages =
        (handleNewMessage st e fid now).1.messages) ∧
    storeGet cid (handleNewMessage st e fid now).1.chats =
      some (bumpChat c0 (buildNewMessage e fid now)) ∧
    storeGet cid (handleNewMessage (handleNewMessage st e fid now).1 e fid now).1.chats =
      some (bumpChat (bumpChat c0 (buildNewMessage e fid now)) (buildNewMessage e fid now)) ∧
    (bumpChat c0 (buildNewMessage e fid now)).unreadCount = c0.unreadCount + 1 ∧
    (bumpChat (bumpChat c0 (buildNewMessage e fid now))
        (buildNewMessage e fid now)).unreadCount = c0.unreadCount + 2 := by
  have h1 := handleNewMessage_found st e fid now cid c0 hcid hc
  have hget1 : storeGet cid (handleNewMessage st e fid now).1.chats =
      some (bumpChat c0 (buildNewMessage e fid now)) := by
    rw [h1]
    exact storeGet_storeSet_self _ _ _
  have h2 := handleNewMessage_found (handleNewMessage st e fid now).1 e fid now cid
    (bumpChat c0 (buildNewMessage e fid now)) hcid hget1
  refine ⟨?_, hget1, ?_, rfl, rfl⟩
  · rw [h2, h1]
    exact storeSet_storeSet_self _ _ _ _
  · rw [h2]
    exact storeGet_storeSet_self _ _ _

/-- C6 witness: the amended two-application behavior at the concrete
fixture state and event. -/
theorem handleNewMessage_apply_twice_witness :
    (buildNewMessage sampleEvent "f" 0).chat = some "c@s.whatsapp.net" ∧
    storeGet "c@s.whatsapp.net" sampleState.chats = some sampleChat ∧
    (((handleNewMessage (handleNewMessage sampleState sampleEvent "f" 0).1 sampleEvent "f"
          0).1.messages = (handleNewMessage sampleState sampleEvent "f" 0).1.messages) ∧
      storeGet "c@s.whatsapp.net" (handleNewMessage sampleState sampleEvent "f" 0).1.chats =
        some (bumpChat sampleChat (buildNewMessage sampleEvent "f" 0)) ∧
      storeGet "c@s.whatsapp.net"
          (handleNewMessage (handleNewMessage sampleState sampleEvent "f" 0).1 sampleEvent "f"
            0).1.chats =
        some (bumpChat (bumpChat sampleChat (buildNewMessage sampleEvent "f" 0))
          (buildNewMessage sampleEvent "f" 0)) ∧
      (bumpChat sampleChat (buildNewMessage sampleEvent "f" 0)).unreadCount =
        sampleChat.unreadCount + 1 ∧
      (bumpChat (bumpChat sampleChat (buildNewMessage sampleEvent "f" 0))
          (buildNewMessage sampleEvent "f" 0)).unreadCount = sampleChat.unreadCount + 2) :=
  ⟨by decide, by decide,
    handleNewMessage_apply_twice sampleState sampleEvent "f" 0 "c@s.whatsapp.net" sampleChat
      (by decide) (by decide)⟩

/-! ### Claim C7 -/

theorem handleReconnection_below (cfg : ReconnectionConfig) (count : Nat)
    (h : count < cfg.retryCount) :
    handleReconnection cfg count = (count + 1, some (cfg.retryDelay * (count + 1)), false) := by
  unfold handleReconnection
  rw [if_neg (by omega)]

theorem handleReconnection_capped (cfg : ReconnectionConfig) (count : Nat)
    (h : cfg.retryCount ≤ count) :
    handleReconnection cfg count = (count, none, true) := by
  unfold handleReconnection
  rw [if_pos h]

theorem reconnectionTrace_spec (cfg : ReconnectionConfig) (k : Nat) : ∀ count : Nat,
    reconnectionTrace cfg k count =
      (List.range' (count + 1) (min k (cfg.retryCount - count))).map
        (fun n => (some (cfg.retryDelay * n), false))
      ++ List.replicate (k - (cfg.retryCount - count)) (none, true) := by
  induction k with
  | zero => intro count; simp [reconnectionTrace]
  | succ k ih =>
    intro count
    by_cases hc : cfg.retryCount ≤ count
    · have hsub : cfg.retryCount - count = 0 := by omega
      rw [reconnectionTrace, handleReconnection_capped cfg count hc]
      show ((none, true) : Option Nat × Bool) :: reconnectionTrace cfg k count = _
      rw [ih count, hsub]
      simp [List.replicate_succ]
    · have hmin : min (k + 1) (cfg.retryCount - count)
          = min k (cfg.retryCount - (count + 1)) + 1 := by omega
      have hrep : (k + 1) - (cfg.retryCount - count)
          = k - (cfg.retryCount - (count + 1)) := by omega
      rw [reconnectionTrace, handleReconnection_below cfg count (by omega)]
      show ((some (cfg.retryDelay * (count + 1)), false) : Option Nat × Bool)
          :: reconnectionTrace cfg k (count + 1) = _
      rw [ih (count + 1), hmin, hrep, List.range'_succ, List.map_cons]
      rfl

/-- C7: starting from a fresh connection, over any run of
`retryCount + m` failure-driven entries into the reconnection handler,
the first `retryCount` entries schedule the n-th reconnect attempt after
`retryDelay * n` (linear backoff) without failing, and every entry past
the cap raises `connection.failed` and schedules no further attempt. -/
theorem reconnection_policy (cfg : ReconnectionConfig) (m : Nat) :
    reconnectionTrace cfg (cfg.retryCount + m) 0 =
      (List.range' 1 cfg.retryCount).map (fun n => (some (cfg.retryDelay * n), false))
      ++ List.replicate m (none, true) := by
  rw [reconnectionTrace_spec cfg (cfg.retryCount + m) 0]
  have h1 : min (cfg.retryCount + m) (cfg.retryCount - 0) = cfg.retryCount := by omega
  have h2 : (cfg.retryCount + m) - (cfg.retryCount - 0) = m := by omega
  rw [h1, h2]

/-! ### Claim C8 -/

/-- C8 counterexample: `WhatsAppCore.handleQRResponse` emits the QR
string with the fields in the order ref, publicKey, clientId, which at
the concrete ref "REF", clientId "CID" and public key "PUB" differs from
the claimed order ref, clientId, publicKey. -/
theorem handleQRResponse_field_order :
    (handleQRResponse (some ⟨"CID", "PUB"⟩) (some "REF")).2 = [.qr "REF,PUB,CID"] ∧
    "REF,PUB,CID" ≠ "REF,CID,PUB" := by
  constructor
  · rfl
  · decide

/-- C8 (amended): both QR producers emit exactly one event on the `qr`
channel whose payload comma-joins three fields with no escaping, but the
orders differ: `QRAuthenticator.generateQR` composes
`ref,clientId,publicKey` (and stores it while starting the timers), while
`WhatsAppCore.handleQRResponse` composes `ref,publicKey,clientId`. -/
theorem qr_string_composition (st : QRAuthState) (ref : String) (c : CoreCredentials) :
    (generateQR st ref).2 = [.qr (ref ++ "," ++ st.clientId ++ "," ++ st.publicKey)] ∧
    (generateQR st ref).1 =
      { st with qrData := some (ref ++ "," ++ st.clientId ++ "," ++ st.publicKey),
                timersActive := true } ∧
    (handleQRResponse (some c) (some ref)).2 =
      [.qr (ref ++ "," ++ c.publicKeyB64 ++ "," ++ c.clientId)] := by
  refine ⟨rfl, rfl, ?_⟩
  show [QREvent.qr (String.intercalate "," [ref, c.publicKeyB64, c.clientId])] = _
  simp [String.intercalate, String.intercalate.go]

/-! ### Claim C10 -/

/-- C10: the empty string occupies index 0 of the token dictionary, so it
encodes to the single byte 0, which is also the encoding of `null` and of
the empty list: the three are indistinguishable on the wire. -/
theorem emptyString_null_emptyList_encoding :
    WA_TOKENS.indexOf "" = 0 ∧
    serializeItem (.str "") = [0] ∧
    serializeItem .nullV = [0] ∧
    serializeList [] = [0] ∧
    serializeItem (.str "") = serializeItem .nullV ∧
    serializeItem (.str "") = serializeList [] := by decide

end WACore
